import Mathlib

/-!
A shallow embedding of the property-rental listing API
(`src/main.py`, `src/schemas.py`): the document serializer, the
query-filter builder of the listing endpoint, the limit validation of
the listing and featured endpoints, the `get property by id` handler,
and the demo-data seeding operation, together with theorems settling
the specified properties.

Modelling conventions:
* Python `float` values (prices, ratings) are modelled as `Rat`; the
  code performs no float arithmetic, only comparisons.
* MongoDB `$regex` with option `"i"` applied to a literal pattern is
  modelled as case-insensitive substring containment, and the anchored
  pattern `^pat$` as case-insensitive whole-string equality; patterns
  containing regex metacharacters are outside the scope of the claims.
* `bson.ObjectId(s)` on a `str` succeeds exactly when `s` is a
  24-character hexadecimal string (the library's documented contract);
  `str(oid)` returns the hex form.
* Python `datetime.isoformat()` is modelled by a `PyDatetime` value
  carrying its ISO-8601 rendering.
-/

/-- Model of `bson.ObjectId`: a store-assigned opaque identifier,
carried as its canonical 24-hex-character string form. -/
structure PyObjectId where
  hex : String
deriving DecidableEq

/-- Model of `datetime.datetime`: carries the ISO-8601 rendering that
`isoformat()` returns. -/
structure PyDatetime where
  iso : String
deriving DecidableEq

/-- `isoformat()` of a modelled datetime. -/
def PyDatetime.isoformat (d : PyDatetime) : String := d.iso

/-- The kinds of values a stored document's field may hold
(string, number, boolean, list, nested mapping, opaque identifier,
date-time, null). -/
inductive BVal where
  | str : String → BVal
  | num : Rat → BVal
  | bool : Bool → BVal
  | list : List BVal → BVal
  | map : List (String × BVal) → BVal
  | oid : PyObjectId → BVal
  | dt : PyDatetime → BVal
  | null : BVal

/-- A stored document: an ordered mapping of field names to values
(Python `dict`, insertion-ordered). -/
abbrev Doc := List (String × BVal)

/-- The per-value conversion performed by the loop body of
`serialize_doc` (src/main.py:34-40): an `ObjectId` becomes `str(v)`,
a `datetime` becomes `v.isoformat()`, everything else passes through. -/
def serialize_val : BVal → BVal
  | .oid o => .str o.hex
  | .dt d => .str d.isoformat
  | v => v

/-- `serialize_doc` (src/main.py:30-41) on a present document:
`if not doc: return doc` returns a falsy (empty) dict unchanged,
otherwise rebuilds the dict converting each top-level value. -/
def serialize_doc (doc : Doc) : Doc :=
  if doc.isEmpty then doc
  else doc.map (fun kv => (kv.1, serialize_val kv.2))

/-- `serialize_doc` including the absent (`None`) argument case:
`if not doc: return doc` also returns `None` unchanged. -/
def serialize_doc_opt : Option Doc → Option Doc
  | none => none
  | some d => some (serialize_doc d)

/-- `bson.ObjectId(s)` succeeds exactly on 24-character hex strings. -/
def isValidObjectId (s : String) : Bool :=
  s.toList.length == 24 &&
    s.toList.all (fun c => c.isDigit || ('a' ≤ c && c ≤ 'f') || ('A' ≤ c && c ≤ 'F'))

/-- Outcome of a request handler: a JSON payload or an HTTP error with
status code and detail string. -/
inductive HandlerResult (α : Type) where
  | ok : α → HandlerResult α
  | httpError : Nat → String → HandlerResult α
deriving DecidableEq

/-- The body of the `try:` block of `get_property`
(src/main.py:150-154), with each `raise` made explicit as an
exception value: `ObjectId(property_id)` raises `InvalidId` on a
malformed identifier; an absent document raises
`HTTPException(404, "Property not found")`; otherwise the serialized
document is returned. The store is modelled as an association list
from hex identifier to document. -/
def get_property_try (store : List (String × Doc)) (property_id : String) :
    Except (Nat × String) Doc :=
  if isValidObjectId property_id then
    match store.find? (fun e => e.1 == property_id) with
    | none => .error (404, "Property not found")
    | some e => .ok (serialize_doc e.2)
  else .error (0, "bson.errors.InvalidId")

/-- `get_property` (src/main.py:146-156): the `except Exception:`
clause catches every exception raised in the `try:` block — including
the `HTTPException(404)` itself — and replaces it with
`HTTPException(400, "Invalid ID")`. -/
def get_property (store : List (String × Doc)) (property_id : String) :
    HandlerResult Doc :=
  match get_property_try store property_id with
  | .ok d => .ok d
  | .error _ => .httpError 400 "Invalid ID"

/-!
## Filter Builder (`list_properties`, src/main.py:89-127)
-/

/-- The fields of a stored property that the listing filter inspects
(schema per `src/schemas.py`, `Property`). -/
structure PropertyDoc where
  title : String
  location : String
  country : String
  property_type : String
  price_per_night : Rat
  bedrooms : Int
  max_guests : Int
  amenities : List String
deriving DecidableEq

/-- The optional search parameters of `GET /api/properties`
(src/main.py:90-97). -/
structure ListParams where
  q : Option String
  property_type : Option String
  min_price : Option Rat
  max_price : Option Rat
  bedrooms : Option Int
  guests : Option Int
  amenity : Option String
deriving DecidableEq

/-- The `price_range` sub-dictionary built at src/main.py:112-116:
optional `$gte` and `$lte` bounds. -/
structure PriceRange where
  gte : Option Rat
  lte : Option Rat
deriving DecidableEq

/-- The filter dictionary `flt` built at src/main.py:103-124, one
field per possible key: `"$or"` holds the free-text pattern applied
to title/location/country, `"property_type"` the anchored
case-insensitive pattern, `"price_per_night"` the range,
`"bedrooms"` and `"max_guests"` their `$gte` bounds, `"amenities"`
the `$in` element. An absent key is `none`. -/
structure Flt where
  qOr : Option String
  property_type : Option String
  price_per_night : Option PriceRange
  bedrooms : Option Int
  max_guests : Option Int
  amenities : Option String
deriving DecidableEq

/-- Python truthiness of an optional string: `if s:` takes the branch
exactly when the value is present and non-empty. -/
def truthy : Option String → Option String
  | some s => if s = "" then none else some s
  | none => none

/-- The filter construction of `list_properties` (src/main.py:103-124):
string parameters are guarded by truthiness (`if q:`), numeric ones by
presence (`is not None`), and the price range key is set only when at
least one bound was collected. -/
def build_filter (p : ListParams) : Flt :=
  let price_range : PriceRange := ⟨p.min_price, p.max_price⟩
  { qOr := truthy p.q
    property_type := truthy p.property_type
    price_per_night :=
      if price_range.gte.isSome || price_range.lte.isSome then some price_range
      else none
    bedrooms := p.bedrooms
    max_guests := p.guests
    amenities := truthy p.amenity }

/-- The characters of a string, lowercased: the comparison key under
the regex option `"i"`. -/
def lowerChars (s : String) : List Char :=
  s.toList.map Char.toLower

/-- Case-insensitive substring containment: the store's evaluation of
`{"$regex": pat, "$options": "i"}` for a literal pattern. -/
def containsCI (hay pat : String) : Bool :=
  decide (lowerChars pat <:+: lowerChars hay)

/-- Store evaluation of the `"$or"` key: the pattern must occur in
title, location, or country (src/main.py:105-109). A missing key
constrains nothing. -/
def matchQ (o : Option String) (d : PropertyDoc) : Bool :=
  match o with
  | none => true
  | some pat => containsCI d.title pat || containsCI d.location pat ||
      containsCI d.country pat

/-- Store evaluation of the `"property_type"` key: the anchored
case-insensitive pattern `^t$` (src/main.py:111) matches exactly the
whole field, ignoring case. -/
def matchType (o : Option String) (d : PropertyDoc) : Bool :=
  match o with
  | none => true
  | some t => lowerChars d.property_type == lowerChars t

/-- Store evaluation of the `"price_per_night"` key: each collected
bound must hold (src/main.py:112-118). -/
def matchPrice (o : Option PriceRange) (d : PropertyDoc) : Bool :=
  match o with
  | none => true
  | some r =>
    (match r.gte with
     | none => true
     | some m => decide (m ≤ d.price_per_night)) &&
    (match r.lte with
     | none => true
     | some M => decide (d.price_per_night ≤ M))

/-- Store evaluation of the `"bedrooms"` key: `{"$gte": b}`
(src/main.py:120). -/
def matchBedrooms (o : Option Int) (d : PropertyDoc) : Bool :=
  match o with
  | none => true
  | some b => decide (b ≤ d.bedrooms)

/-- Store evaluation of the `"max_guests"` key: `{"$gte": g}`
(src/main.py:122). -/
def matchGuests (o : Option Int) (d : PropertyDoc) : Bool :=
  match o with
  | none => true
  | some g => decide (g ≤ d.max_guests)

/-- Store evaluation of the `"amenities"` key: `{"$in": [a]}` on an
array field matches when some element of the stored list equals `a`
(src/main.py:124). -/
def matchAmenity (o : Option String) (d : PropertyDoc) : Bool :=
  match o with
  | none => true
  | some a => d.amenities.contains a

/-- Store evaluation of the whole filter dictionary: every present
key must match (MongoDB conjunction of top-level keys). -/
def matchesFilter (f : Flt) (d : PropertyDoc) : Bool :=
  matchQ f.qOr d && matchType f.property_type d &&
    matchPrice f.price_per_night d && matchBedrooms f.bedrooms d &&
    matchGuests f.max_guests d && matchAmenity f.amenities d

/-- The parameter set with nothing supplied. -/
def noParams : ListParams := ⟨none, none, none, none, none, none, none⟩

/-- The empty filter `{}` (match-all). -/
def emptyFilter : Flt := ⟨none, none, none, none, none, none⟩

/-!
## Limit validation (src/main.py:98 and src/main.py:131)
-/

/-- `GET /api/properties` up to the store query: the `limit` parameter
is declared `Query(12, ge=1, le=50)` (src/main.py:98), so FastAPI
rejects an out-of-range value with a validation error before the
handler body runs — in particular before any filter is built; an
omitted parameter defaults to 12. On success the handler queries the
store with the built filter and the given limit. -/
def list_properties_request (p : ListParams) (limit : Option Int) :
    HandlerResult (Flt × Int) :=
  match limit with
  | some l =>
    if 1 ≤ l ∧ l ≤ 50 then .ok (build_filter p, l)
    else .httpError 422 "validation error"
  | none => .ok (build_filter p, 12)

/-- `GET /api/properties/featured` up to the store query: the `limit`
parameter is declared `Query(8, ge=1, le=24)` (src/main.py:131); the
handler ignores all search filters and queries with `{}`. -/
def featured_request (limit : Option Int) : HandlerResult (Flt × Int) :=
  match limit with
  | some l =>
    if 1 ≤ l ∧ l ≤ 24 then .ok (emptyFilter, l)
    else .httpError 422 "validation error"
  | none => .ok (emptyFilter, 8)

/-!
## Seeding (`seed_properties`, src/main.py:173-411)
-/

/-- `Host` (src/schemas.py:12-15). -/
structure Host where
  name : String
  email : String
  phone : Option String := none
deriving DecidableEq

/-- `Property` (src/schemas.py:18-31). -/
structure Property where
  title : String
  description : Option String := none
  property_type : String
  location : String
  country : String
  price_per_night : Rat
  max_guests : Int
  bedrooms : Int
  bathrooms : Int
  amenities : List String := []
  images : List String := []
  rating : Option Rat := none
  host : Host
deriving DecidableEq

/-- The bundled sample set of `seed_properties`
(src/main.py:183-405), in source order. -/
def samples : List Property := [
  { title := "Skyline Luxe Villa"
    description := some "A luxurious villa with panoramic city views and infinity pool."
    property_type := "villa"
    location := "Mumbai"
    country := "India"
    price_per_night := 420
    max_guests := 8
    bedrooms := 4
    bathrooms := 3
    amenities := ["Pool", "WiFi", "Chef", "Parking", "Garden"]
    images := ["https://images.unsplash.com/photo-1505691723518-36a5ac3b2d98",
               "https://images.unsplash.com/photo-1499951360447-b19be8fe80f5"]
    host := { name := "Anaya Kapoor", email := "anaya@example.com" } },
  { title := "Serene Farm Retreat"
    description := some "Peaceful farmhouse surrounded by lush fields and a private orchard."
    property_type := "farmhouse"
    location := "Pune"
    country := "India"
    price_per_night := 220
    max_guests := 6
    bedrooms := 3
    bathrooms := 2
    amenities := ["Bonfire", "WiFi", "Parking", "Pet Friendly"]
    images := ["https://images.unsplash.com/photo-1522708323590-d24dbb6b0267",
               "https://images.unsplash.com/photo-1505691938895-1758d7feb511"]
    host := { name := "Rohit Verma", email := "rohit@example.com" } },
  { title := "Modern Glass House"
    description := some "Contemporary glass house tucked in the hills with stunning sunsets."
    property_type := "villa"
    location := "Lonavala"
    country := "India"
    price_per_night := 350
    max_guests := 5
    bedrooms := 2
    bathrooms := 2
    amenities := ["Mountain View", "WiFi", "Hot Tub"]
    images := ["https://images.unsplash.com/photo-1494526585095-c41746248156",
               "https://images.unsplash.com/photo-1499696010189-9d2150aee9f6"]
    host := { name := "Mira Shah", email := "mira@example.com" } },
  { title := "Coastal Breeze Villa"
    description := some "Minimal, modern villa steps from a quiet beach with sea breeze."
    property_type := "villa"
    location := "Goa"
    country := "India"
    price_per_night := 300
    max_guests := 7
    bedrooms := 3
    bathrooms := 3
    amenities := ["Beach Access", "Pool", "AC", "WiFi"]
    images := ["https://images.unsplash.com/photo-1475855581690-80accde3ae2b",
               "https://images.unsplash.com/photo-1505692794403-34fdb2f1faac"]
    host := { name := "Elena Dsouza", email := "elena@example.com" } },
  { title := "Riverside Farmhouse"
    description := some "Charming farmhouse along a riverside with sprawling lawns."
    property_type := "farmhouse"
    location := "Karjat"
    country := "India"
    price_per_night := 180
    max_guests := 6
    bedrooms := 3
    bathrooms := 2
    amenities := ["Bonfire", "Parking", "Pet Friendly", "BBQ"]
    images := ["https://images.unsplash.com/photo-1505691938895-1758d7feb511",
               "https://images.unsplash.com/photo-1460317442991-0ec209397118"]
    host := { name := "Dev Patel", email := "dev@example.com" } },
  { title := "Forest Edge Cottage"
    description := some "Cozy cottage at the forest edge; perfect for quiet retreats."
    property_type := "cottage"
    location := "Coorg"
    country := "India"
    price_per_night := 160
    max_guests := 4
    bedrooms := 2
    bathrooms := 1
    amenities := ["Fireplace", "Mountain View", "WiFi"]
    images := ["https://images.unsplash.com/photo-1441974231531-c6227db76b6e",
               "https://images.unsplash.com/photo-1502672260266-1c1ef2d93688"]
    host := { name := "Aarav Nair", email := "aarav@example.com" } },
  { title := "Royal Heritage Mansion"
    description := some "Grand mansion restored with modern comforts and private courtyard."
    property_type := "mansion"
    location := "Jaipur"
    country := "India"
    price_per_night := 550
    max_guests := 10
    bedrooms := 6
    bathrooms := 5
    amenities := ["Chef", "Butler", "WiFi", "Parking", "Garden"]
    images := ["https://images.unsplash.com/photo-1501183638710-841dd1904471",
               "https://images.unsplash.com/photo-1505691723518-36a5ac3b2d98"]
    host := { name := "Rani Singh", email := "rani@example.com" } },
  { title := "Cliffside Infinity Villa"
    description := some "Perched on a cliff with a dramatic infinity pool and sunset views."
    property_type := "villa"
    location := "Visakhapatnam"
    country := "India"
    price_per_night := 480
    max_guests := 8
    bedrooms := 4
    bathrooms := 4
    amenities := ["Infinity Pool", "WiFi", "AC", "Chef"]
    images := ["https://images.unsplash.com/photo-1455587734955-081b22074882",
               "https://images.unsplash.com/photo-1484154218962-a197022b5858"]
    host := { name := "Kabir Rao", email := "kabir@example.com" } },
  { title := "Vineyard Country House"
    description := some "Country farmhouse overlooking vineyards with rustic-chic interiors."
    property_type := "farmhouse"
    location := "Nashik"
    country := "India"
    price_per_night := 210
    max_guests := 5
    bedrooms := 3
    bathrooms := 2
    amenities := ["Winery Tour", "Bonfire", "WiFi"]
    images := ["https://images.unsplash.com/photo-1496417263034-38ec4f0b665a",
               "https://images.unsplash.com/photo-1505691938895-1758d7feb511"]
    host := { name := "Neha Kulkarni", email := "neha@example.com" } },
  { title := "Lakeside Minimal Villa"
    description := some "Ultra-minimal lakeside villa with floor-to-ceiling glass."
    property_type := "villa"
    location := "Udaipur"
    country := "India"
    price_per_night := 390
    max_guests := 6
    bedrooms := 3
    bathrooms := 3
    amenities := ["Lake View", "WiFi", "Parking", "Chef"]
    images := ["https://images.unsplash.com/photo-1484154218962-a197022b5858",
               "https://images.unsplash.com/photo-1505691723518-36a5ac3b2d98"]
    host := { name := "Ishaan Mehta", email := "ishaan@example.com" } },
  { title := "Tea Estate Bungalow"
    description := some "Colonial-era bungalow nestled within a working tea estate."
    property_type := "cottage"
    location := "Munnar"
    country := "India"
    price_per_night := 190
    max_guests := 5
    bedrooms := 3
    bathrooms := 2
    amenities := ["Garden", "WiFi", "Bonfire"]
    images := ["https://images.unsplash.com/photo-1505691723518-36a5ac3b2d98",
               "https://images.unsplash.com/photo-1449844908441-8829872d2607"]
    host := { name := "Priya Iyer", email := "priya@example.com" } },
  { title := "Desert Dune Villa"
    description := some "Stark, sculptural villa opening to desert dunes and starry skies."
    property_type := "villa"
    location := "Jaisalmer"
    country := "India"
    price_per_night := 260
    max_guests := 6
    bedrooms := 3
    bathrooms := 2
    amenities := ["Rooftop", "WiFi", "AC", "BBQ"]
    images := ["https://images.unsplash.com/photo-1519710164239-da123dc03ef4",
               "https://images.unsplash.com/photo-1499696010189-9d2150aee9f6"]
    host := { name := "Zoya Khan", email := "zoya@example.com" } },
  { title := "Himalayan View Chalet"
    description := some "Warm wooden chalet with sweeping Himalayan views and hot tub."
    property_type := "cottage"
    location := "Manali"
    country := "India"
    price_per_night := 275
    max_guests := 6
    bedrooms := 3
    bathrooms := 2
    amenities := ["Mountain View", "Hot Tub", "Fireplace", "WiFi"]
    images := ["https://images.unsplash.com/photo-1512918728675-ed5a9ecdebfd",
               "https://images.unsplash.com/photo-1502673530728-f79b4cab31b1"]
    host := { name := "Arjun Malhotra", email := "arjun@example.com" } }]

/-- `seed_properties` (src/main.py:173-411) acting on the property
collection (modelled as the list of stored documents, store order):
`count_documents({})` then the guard `if count >= 10: return 0`
(src/main.py:178-181); otherwise the loop at src/main.py:407-410
inserts every sample in order, incrementing `inserted`. Returns the
updated collection and the reported `inserted` count. -/
def seed_properties (store : List Property) : List Property × Nat :=
  if store.length ≥ 10 then (store, 0)
  else samples.foldl (fun acc s => (acc.1 ++ [s], acc.2 + 1)) (store, 0)

/-!
## Concrete inputs used by witnesses
-/

/-- A document holding an opaque identifier nested inside a list value
and another at top level. -/
def c10doc : Doc :=
  [("a", BVal.list [BVal.oid ⟨"0123456789abcdef01234567"⟩]), ("b", BVal.oid ⟨"ffff"⟩)]

/-- A full parameter set: q, type, both price bounds, bedrooms,
guests, amenity. -/
def c2Params : ListParams :=
  ⟨some "luxe", some "Villa", some 100, some 500, some 2, some 4, some "Pool"⟩

/-- A stored property satisfying every constraint of `c2Params`. -/
def c2Doc : PropertyDoc :=
  ⟨"Skyline Luxe Villa", "Mumbai", "India", "villa", 420, 4, 8, ["Pool", "WiFi"]⟩

/-- Only `type=villa` supplied. -/
def c3Params : ListParams := ⟨none, some "villa", none, none, none, none, none⟩

/-- Stored type `"Villa"`: equal to `"villa"` ignoring case. -/
def c3Doc : PropertyDoc := ⟨"A", "B", "C", "Villa", 100, 1, 2, []⟩

/-- Stored type `"villalike"`: contains `"villa"` only as a proper
substring. -/
def c3DocSub : PropertyDoc := ⟨"A", "B", "C", "villalike", 100, 1, 2, []⟩

/-- Only `amenity=Pool` supplied. -/
def c4Params : ListParams := ⟨none, none, none, none, none, none, some "Pool"⟩

/-- Amenities list containing `"Pool"` as an element. -/
def c4Doc : PropertyDoc := ⟨"A", "B", "C", "villa", 100, 1, 2, ["Pool", "WiFi"]⟩

/-- Amenities list where `"Pool"` occurs only as a substring of an
element or in different case. -/
def c4DocSub : PropertyDoc := ⟨"A", "B", "C", "villa", 100, 1, 2, ["Poolside", "pool"]⟩

/-- Only `q=luxe` supplied. -/
def c5Params : ListParams := ⟨some "luxe", none, none, none, none, none, none⟩

/-- `q` supplied as the empty string. -/
def c5ParamsEmpty : ListParams := ⟨some "", none, none, none, none, none, none⟩

/-- A property whose title contains `"luxe"` ignoring case. -/
def c5Doc : PropertyDoc := ⟨"Skyline Luxe Villa", "Mumbai", "India", "villa", 420, 4, 8, []⟩

/-- Only the two price bounds supplied. -/
def c6Params : ListParams := ⟨none, none, some 100, some 500, none, none, none⟩

/-- A property priced between the two bounds. -/
def c6Doc : PropertyDoc := ⟨"A", "B", "C", "villa", 420, 4, 8, []⟩

/-!
## Helper lemmas
-/

theorem serialize_val_idem (v : BVal) :
    serialize_val (serialize_val v) = serialize_val v := by
  cases v <;> rfl

theorem serialize_doc_keys (doc : Doc) :
    (serialize_doc doc).map Prod.fst = doc.map Prod.fst := by
  by_cases h : doc.isEmpty
  · simp [serialize_doc, h]
  · simp [serialize_doc, h, List.map_map]

theorem serialize_doc_mem (doc : Doc) (k : String) (v : BVal) (h : (k, v) ∈ doc) :
    (k, serialize_val v) ∈ serialize_doc doc := by
  have hne : doc.isEmpty = false := by
    cases doc
    · cases h
    · rfl
  have := List.mem_map_of_mem (fun kv => (kv.1, serialize_val kv.2)) h
  simpa [serialize_doc, hne] using this

theorem matchQ_build_iff (p : ListParams) (d : PropertyDoc) :
    matchQ (build_filter p).qOr d = true ↔
      ∀ s, p.q = some s → s ≠ "" →
        (lowerChars s <:+: lowerChars d.title ∨
         lowerChars s <:+: lowerChars d.location ∨
         lowerChars s <:+: lowerChars d.country) := by
  cases hq : p.q with
  | none => simp [build_filter, truthy, matchQ, hq]
  | some s =>
    by_cases hs : s = ""
    · subst hs; simp [build_filter, truthy, matchQ, hq]
    · simp [build_filter, truthy, matchQ, hq, hs, containsCI, Bool.or_eq_true,
        decide_eq_true_iff, or_assoc]

theorem matchType_build_iff (p : ListParams) (d : PropertyDoc) :
    matchType (build_filter p).property_type d = true ↔
      ∀ t, p.property_type = some t → t ≠ "" →
        lowerChars d.property_type = lowerChars t := by
  cases ht : p.property_type with
  | none => simp [build_filter, truthy, matchType, ht]
  | some t =>
    by_cases hs : t = ""
    · subst hs; simp [build_filter, truthy, matchType, ht]
    · simp [build_filter, truthy, matchType, ht, hs]

theorem matchPrice_build_iff (p : ListParams) (d : PropertyDoc) :
    matchPrice (build_filter p).price_per_night d = true ↔
      ((∀ m, p.min_price = some m → m ≤ d.price_per_night) ∧
       (∀ M, p.max_price = some M → d.price_per_night ≤ M)) := by
  cases hm : p.min_price <;> cases hM : p.max_price <;>
    simp [build_filter, matchPrice, hm, hM]

theorem matchBedrooms_build_iff (p : ListParams) (d : PropertyDoc) :
    matchBedrooms (build_filter p).bedrooms d = true ↔
      ∀ b, p.bedrooms = some b → b ≤ d.bedrooms := by
  cases hb : p.bedrooms <;> simp [build_filter, matchBedrooms, hb]

theorem matchGuests_build_iff (p : ListParams) (d : PropertyDoc) :
    matchGuests (build_filter p).max_guests d = true ↔
      ∀ g, p.guests = some g → g ≤ d.max_guests := by
  cases hg : p.guests <;> simp [build_filter, matchGuests, hg]

theorem matchAmenity_build_iff (p : ListParams) (d : PropertyDoc) :
    matchAmenity (build_filter p).amenities d = true ↔
      ∀ a, p.amenity = some a → a ≠ "" → a ∈ d.amenities := by
  cases ha : p.amenity with
  | none => simp [build_filter, truthy, matchAmenity, ha]
  | some a =>
    by_cases hs : a = ""
    · subst hs; simp [build_filter, truthy, matchAmenity, ha]
    · simp [build_filter, truthy, matchAmenity, ha, hs]

theorem seed_fold (l st : List Property) (n : Nat) :
    l.foldl (fun acc s => (acc.1 ++ [s], acc.2 + 1)) (st, n) = (st ++ l, n + l.length) := by
  induction l generalizing st n with
  | nil => simp
  | cons a t ih => simp [List.foldl, ih]; omega

/-!
## Claim theorems
-/

/-- Claim C1. The spec requires `get property by id` to answer 400 on a
syntactically invalid identifier, 404 on a valid-but-absent one, and
the serialized record otherwise. The code violates the 404 case: the
`HTTPException(404)` raised inside the `try:` block is itself caught by
`except Exception:` and replaced by `HTTPException(400, "Invalid ID")`.
At the failing input — a well-formed 24-hex identifier queried against
an empty property collection — the try-body produces the intended 404,
but the handler answers 400. The invalid-identifier case does answer
400 as claimed. -/
theorem get_property_status_behaviour :
    isValidObjectId "0123456789abcdef01234567" = true ∧
    get_property_try [] "0123456789abcdef01234567" = .error (404, "Property not found") ∧
    get_property [] "0123456789abcdef01234567" = .httpError 400 "Invalid ID" ∧
    isValidObjectId "not-an-id" = false ∧
    get_property [] "not-an-id" = .httpError 400 "Invalid ID" := by
  refine ⟨by decide, rfl, rfl, by decide, rfl⟩

/-- Claim C2. For every combination of the optional search parameters,
a record matches the built filter exactly when it satisfies every
supplied constraint (the conjunction): free-text containment in
title, location, or country; whole-field case-insensitive type
equality; the price bounds; minimum bedrooms; minimum guest capacity;
and exact amenity membership. A string parameter supplied as the empty
string adds no constraint (Python truthiness); with no parameters
supplied the built filter is the empty filter and matches every
record. -/
theorem list_filter_conjunctive (p : ListParams) (d : PropertyDoc) :
    (matchesFilter (build_filter p) d = true ↔
      ((∀ s, p.q = some s → s ≠ "" →
          (lowerChars s <:+: lowerChars d.title ∨
           lowerChars s <:+: lowerChars d.location ∨
           lowerChars s <:+: lowerChars d.country)) ∧
       (∀ t, p.property_type = some t → t ≠ "" →
          lowerChars d.property_type = lowerChars t) ∧
       (∀ m, p.min_price = some m → m ≤ d.price_per_night) ∧
       (∀ M, p.max_price = some M → d.price_per_night ≤ M) ∧
       (∀ b, p.bedrooms = some b → b ≤ d.bedrooms) ∧
       (∀ g, p.guests = some g → g ≤ d.max_guests) ∧
       (∀ a, p.amenity = some a → a ≠ "" → a ∈ d.amenities))) ∧
    (p = noParams → build_filter p = emptyFilter ∧ matchesFilter (build_filter p) d = true) := by
  constructor
  · simp only [matchesFilter, Bool.and_eq_true]
    rw [matchQ_build_iff, matchType_build_iff, matchPrice_build_iff,
      matchBedrooms_build_iff, matchGuests_build_iff, matchAmenity_build_iff]
    tauto
  · rintro rfl
    exact ⟨rfl, rfl⟩

/-- Witness for C2: a record satisfying all seven supplied constraints
matches the built filter, and any record matches the filter built from
no parameters. -/
theorem list_filter_conjunctive_witness :
    matchesFilter (build_filter c2Params) c2Doc = true ∧
    matchesFilter (build_filter noParams) c2Doc = true := by
  constructor
  · refine (list_filter_conjunctive c2Params c2Doc).1.mpr
      ⟨?_, ?_, ?_, ?_, ?_, ?_, ?_⟩
    · intro s h hne; injection h with h; subst h; decide
    · intro t h hne; injection h with h; subst h; decide
    · intro m h; injection h with h; subst h; decide
    · intro M h; injection h with h; subst h; decide
    · intro b h; injection h with h; subst h; decide
    · intro g h; injection h with h; subst h; decide
    · intro a h hne; injection h with h; subst h; decide
  · exact ((list_filter_conjunctive noParams c2Doc).2 rfl).2

/-- Claim C3. When a non-empty `property_type` parameter is supplied,
the anchored case-insensitive pattern `^t$` built at src/main.py:111
matches a record exactly when the whole stored `property_type` field
equals the parameter ignoring case — never by substring. -/
theorem property_type_exact_ci (p : ListParams) (d : PropertyDoc) (t : String)
    (ht : p.property_type = some t) (hne : t ≠ "") :
    matchType (build_filter p).property_type d = true ↔
      lowerChars d.property_type = lowerChars t := by
  simp [build_filter, truthy, ht, hne, matchType]

/-- Witness for C3: `type=villa` matches stored `"Villa"` and does not
match stored `"villalike"`. -/
theorem property_type_exact_ci_witness :
    matchType (build_filter c3Params).property_type c3Doc = true ∧
    matchType (build_filter c3Params).property_type c3DocSub = false := by
  constructor
  · exact (property_type_exact_ci c3Params c3Doc "villa" rfl (by decide)).mpr (by decide)
  · rw [Bool.eq_false_iff]
    intro hmt
    exact absurd ((property_type_exact_ci c3Params c3DocSub "villa" rfl (by decide)).mp hmt)
      (by decide)

/-- Claim C4. When a non-empty `amenity` parameter is supplied, the
`{"$in": [amenity]}` constraint built at src/main.py:124 matches a
record exactly when that string — case-sensitively, as a whole
element, not a substring — is a member of the stored amenities
list. -/
theorem amenity_exact_element (p : ListParams) (d : PropertyDoc) (a : String)
    (ha : p.amenity = some a) (hne : a ≠ "") :
    matchAmenity (build_filter p).amenities d = true ↔ a ∈ d.amenities := by
  simp [build_filter, truthy, ha, hne, matchAmenity]

/-- Witness for C4: `amenity=Pool` matches a list containing `"Pool"`
and does not match a list containing only `"Poolside"` and
`"pool"`. -/
theorem amenity_exact_element_witness :
    matchAmenity (build_filter c4Params).amenities c4Doc = true ∧
    matchAmenity (build_filter c4Params).amenities c4DocSub = false := by
  constructor
  · exact (amenity_exact_element c4Params c4Doc "Pool" rfl (by decide)).mpr (by decide)
  · rw [Bool.eq_false_iff]
    intro hmt
    exact absurd ((amenity_exact_element c4Params c4DocSub "Pool" rfl (by decide)).mp hmt)
      (by decide)

/-- Claim C5. An absent or empty `q` parameter adds no free-text
constraint; a supplied non-empty `q` produces the three-way `$or` and
matches a record exactly when at least one of title, location, or
country contains `q` as a case-insensitive, unanchored substring. -/
theorem q_substring_filter (p : ListParams) (d : PropertyDoc) :
    ((p.q = none ∨ p.q = some "") → (build_filter p).qOr = none) ∧
    (∀ s, p.q = some s → s ≠ "" →
      ((build_filter p).qOr = some s ∧
       (matchQ (build_filter p).qOr d = true ↔
         (lowerChars s <:+: lowerChars d.title ∨
          lowerChars s <:+: lowerChars d.location ∨
          lowerChars s <:+: lowerChars d.country)))) := by
  constructor
  · rintro (hq | hq) <;> simp [build_filter, truthy, hq]
  · intro s hq hs
    refine ⟨by simp [build_filter, truthy, hq, hs], ?_⟩
    simp [build_filter, truthy, hq, hs, matchQ, containsCI, decide_eq_true_iff, or_assoc]

/-- Witness for C5: `q=luxe` installs the constraint and matches a
title containing `"Luxe"`; `q=` (empty) installs none. -/
theorem q_substring_filter_witness :
    (build_filter c5Params).qOr = some "luxe" ∧
    matchQ (build_filter c5Params).qOr c5Doc = true ∧
    (build_filter c5ParamsEmpty).qOr = none := by
  refine ⟨((q_substring_filter c5Params c5Doc).2 "luxe" rfl (by decide)).1, ?_, ?_⟩
  · exact ((q_substring_filter c5Params c5Doc).2 "luxe" rfl (by decide)).2.mpr
      (Or.inl (by decide))
  · exact (q_substring_filter c5ParamsEmpty c5Doc).1 (Or.inr rfl)

/-- Claim C6. The `price_per_night` key is absent from the filter when
neither bound is supplied; otherwise the record must be ≥ the minimum
exactly when `min_price` was supplied and ≤ the maximum exactly when
`max_price` was supplied — no bound is defaulted. -/
theorem price_bounds_filter (p : ListParams) (d : PropertyDoc) :
    (p.min_price = none → p.max_price = none → (build_filter p).price_per_night = none) ∧
    (matchPrice (build_filter p).price_per_night d = true ↔
      ((∀ m, p.min_price = some m → m ≤ d.price_per_night) ∧
       (∀ M, p.max_price = some M → d.price_per_night ≤ M))) := by
  refine ⟨?_, matchPrice_build_iff p d⟩
  intro hm hM
  simp [build_filter, hm, hM]

/-- Witness for C6: a 420-per-night record satisfies bounds 100..500,
and with no bounds supplied the price key is absent. -/
theorem price_bounds_filter_witness :
    matchPrice (build_filter c6Params).price_per_night c6Doc = true ∧
    (build_filter noParams).price_per_night = none := by
  constructor
  · refine (price_bounds_filter c6Params c6Doc).2.mpr ⟨?_, ?_⟩
    · intro m h; injection h with h; subst h; decide
    · intro M h; injection h with h; subst h; decide
  · exact (price_bounds_filter noParams c6Doc).1 rfl rfl

/-- Claim C7. A `limit` outside [1,50] on the listing endpoint is
rejected with a validation error before any filter is built, while an
in-range limit — in particular 50 — is accepted and passed through
unchanged (never clamped); the featured endpoint accepts exactly
[1,24]. -/
theorem limit_validation (p : ListParams) (l : Int) :
    (¬ (1 ≤ l ∧ l ≤ 50) →
      list_properties_request p (some l) = .httpError 422 "validation error") ∧
    (1 ≤ l ∧ l ≤ 50 → list_properties_request p (some l) = .ok (build_filter p, l)) ∧
    (¬ (1 ≤ l ∧ l ≤ 24) → featured_request (some l) = .httpError 422 "validation error") ∧
    (1 ≤ l ∧ l ≤ 24 → featured_request (some l) = .ok (emptyFilter, l)) := by
  refine ⟨?_, ?_, ?_, ?_⟩ <;> intro h <;>
    simp [list_properties_request, featured_request, h]

/-- Witness for C7: limit 0 and 51 rejected and 50 accepted on
listing; 25 rejected and 24 accepted on featured. -/
theorem limit_validation_witness :
    list_properties_request noParams (some 0) = .httpError 422 "validation error" ∧
    list_properties_request noParams (some 51) = .httpError 422 "validation error" ∧
    list_properties_request noParams (some 50) = .ok (build_filter noParams, 50) ∧
    featured_request (some 25) = .httpError 422 "validation error" ∧
    featured_request (some 24) = .ok (emptyFilter, 24) :=
  ⟨(limit_validation noParams 0).1 (by decide),
   (limit_validation noParams 51).1 (by decide),
   (limit_validation noParams 50).2.1 (by decide),
   (limit_validation noParams 25).2.2.1 (by decide),
   (limit_validation noParams 24).2.2.2 (by decide)⟩

/-- Claim C8. Starting from an empty property collection, the first
seed call inserts exactly the bundled sample set (all 13 samples) and
reports that count; the resulting collection size reaches the guard
threshold 10, so a second call inserts nothing and reports 0. -/
theorem seed_twice_from_empty :
    seed_properties [] = (samples, samples.length) ∧
    samples.length = 13 ∧
    seed_properties (seed_properties []).1 = ((seed_properties []).1, 0) ∧
    10 ≤ (seed_properties []).1.length := by
  have hlen : samples.length = 13 := rfl
  have h1 : seed_properties [] = (samples, samples.length) := by
    simp [seed_properties, seed_fold]
  refine ⟨h1, hlen, ?_, ?_⟩
  · rw [h1]
    simp [seed_properties, hlen]
  · rw [h1]
    simp [hlen]

/-- Claim C9. The serializer is idempotent — serializing any document
twice equals serializing it once — and an empty document, as well as
an absent one, serializes to itself without error. -/
theorem serializer_idempotent :
    (∀ doc : Doc, serialize_doc (serialize_doc doc) = serialize_doc doc) ∧
    serialize_doc ([] : Doc) = [] ∧ serialize_doc_opt none = none := by
  refine ⟨?_, rfl, rfl⟩
  intro doc
  by_cases h : doc.isEmpty
  · simp [serialize_doc, h]
  · simp [serialize_doc, h, List.map_map, Function.comp, serialize_val_idem]

/-- Claim C10. The serializer converts only top-level values: the key
set is preserved; a list or nested-mapping value — whatever
identifiers or date-times it contains — passes through completely
unchanged, as do top-level strings, numbers, booleans, and nulls;
only a top-level identifier or date-time is converted, to its string
form. -/
theorem serializer_top_level_only (doc : Doc) :
    (serialize_doc doc).map Prod.fst = doc.map Prod.fst ∧
    (∀ k l, (k, BVal.list l) ∈ doc → (k, BVal.list l) ∈ serialize_doc doc) ∧
    (∀ k m, (k, BVal.map m) ∈ doc → (k, BVal.map m) ∈ serialize_doc doc) ∧
    (∀ k s, (k, BVal.str s) ∈ doc → (k, BVal.str s) ∈ serialize_doc doc) ∧
    (∀ k q, (k, BVal.num q) ∈ doc → (k, BVal.num q) ∈ serialize_doc doc) ∧
    (∀ k b, (k, BVal.bool b) ∈ doc → (k, BVal.bool b) ∈ serialize_doc doc) ∧
    (∀ k, (k, BVal.null) ∈ doc → (k, BVal.null) ∈ serialize_doc doc) ∧
    (∀ k o, (k, BVal.oid o) ∈ doc → (k, BVal.str o.hex) ∈ serialize_doc doc) ∧
    (∀ k t, (k, BVal.dt t) ∈ doc → (k, BVal.str t.isoformat) ∈ serialize_doc doc) :=
  ⟨serialize_doc_keys doc,
   fun k l h => serialize_doc_mem doc k (BVal.list l) h,
   fun k m h => serialize_doc_mem doc k (BVal.map m) h,
   fun k s h => serialize_doc_mem doc k (BVal.str s) h,
   fun k q h => serialize_doc_mem doc k (BVal.num q) h,
   fun k b h => serialize_doc_mem doc k (BVal.bool b) h,
   fun k h => serialize_doc_mem doc k BVal.null h,
   fun k o h => serialize_doc_mem doc k (BVal.oid o) h,
   fun k t h => serialize_doc_mem doc k (BVal.dt t) h⟩

/-- Witness for C10: an identifier nested inside a list value survives
serialization unchanged while the key set is preserved. -/
theorem serializer_top_level_only_witness :
    ("a", BVal.list [BVal.oid ⟨"0123456789abcdef01234567"⟩]) ∈ serialize_doc c10doc ∧
    (serialize_doc c10doc).map Prod.fst = ["a", "b"] := by
  constructor
  · exact (serializer_top_level_only c10doc).2.1 "a" _ (List.mem_cons_self _ _)
  · rw [(serializer_top_level_only c10doc).1]
    rfl
